import Mathlib

/-!
Shallow embedding of `src/c2oo.py` (class `TapoC200Controller`).

The controller object carries connection handles and a stream URL; it stores
no pan/tilt position.  Handles are modelled as `Bool` flags ("handle present"),
the stream URL as `Option String`.  Every method is embedded as a pure
function from the controller state to a new state together with the list of
externally visible effects it performs (PTZ protocol commands, sleeps,
console logs, resource releases).  Python exceptions raised by the external
ONVIF transport are modelled by explicit fault parameters naming the call
site at which the transport raises; the `try/except` handlers of the source
then select the corresponding branch.  Console log payloads keep the ASCII
text of the source prints (emoji prefixes and interpolated exception texts
are dropped).  Durations are in milliseconds.
-/

namespace C2oo

/-- The mutable fields of `TapoC200Controller` set in `__init__`
(lines 35-54).  Service handles are `true` when the handle is present
(non-`None`), mirroring the truthiness tests of the source. -/
structure ControllerState where
  camera_ip : String
  username : String
  password : String
  port : Nat
  camera : Bool
  media_service : Bool
  ptz_service : Bool
  imaging_service : Bool
  stream_url : Option String
  video_capture : Bool
deriving DecidableEq, Repr

/-- `__init__` (lines 35-54): all handles absent, no stream URL. -/
def initController (ip user pw : String) (port : Nat) : ControllerState :=
  { camera_ip := ip, username := user, password := pw, port := port,
    camera := false, media_service := false, ptz_service := false,
    imaging_service := false, stream_url := none, video_capture := false }

/-- PTZ protocol commands issued through the ONVIF PTZ service. -/
inductive PtzCmd where
  | getProfiles
  | continuousMove (vx vy : ℚ)
  | stop
  | gotoHome
deriving DecidableEq, Repr

/-- Externally visible effects of a method call, in program order. -/
inductive Effect where
  | log (msg : String)
  | ptz (c : PtzCmd)
  | sleepMs (ms : Nat)
  | snapshot
  | cameraInfo
  | releaseCapture
  | destroyWindows
deriving DecidableEq, Repr

/-- Transport fault model for the `try` block of a directional move
(`pan_left` lines 329-347 and its three siblings): the external call that
raises, or `ok` when none does. -/
inductive MoveFault where
  | ok
  | failProfiles
  | failMove
deriving DecidableEq, Repr

/-- Transport fault model for the `try` block of `stop_ptz` (lines 432-444). -/
inductive StopFault where
  | ok
  | failProfiles
  | failStop
deriving DecidableEq, Repr

/-- Transport fault model for the `try` block of `go_home` (lines 452-463). -/
inductive HomeFault where
  | ok
  | fail
deriving DecidableEq, Repr

/-- `stop_ptz` (lines 427-444): silently returns when the PTZ handle is
absent; otherwise fetches profiles and issues a `Stop`; any transport
exception is caught and logged.  No state field is assigned. -/
def stop_ptz (st : ControllerState) (sf : StopFault) : List Effect :=
  if st.ptz_service = false then []
  else
    match sf with
    | .ok => [Effect.ptz PtzCmd.getProfiles, Effect.ptz PtzCmd.stop]
    | .failProfiles => [Effect.log "Failed to stop PTZ"]
    | .failStop => [Effect.ptz PtzCmd.getProfiles, Effect.log "Failed to stop PTZ"]

/-- `pan_left` (lines 323-347): when the PTZ handle is absent, log and
return; otherwise issue one `ContinuousMove` with velocity `(-speed, 0)`,
sleep 0.5 s, then call `stop_ptz`; any transport exception in the `try`
block is caught and logged.  The Python default for `speed` is `0.5`.
No state field is assigned in any branch. -/
def pan_left (st : ControllerState) (speed : ℚ) (f : MoveFault) (sf : StopFault) :
    ControllerState × List Effect :=
  if st.ptz_service = false then (st, [Effect.log "PTZ service not available"])
  else
    match f with
    | .failProfiles => (st, [Effect.log "Failed to pan left"])
    | .failMove =>
        (st, [Effect.ptz PtzCmd.getProfiles, Effect.log "Failed to pan left"])
    | .ok =>
        (st, [Effect.ptz PtzCmd.getProfiles,
              Effect.ptz (PtzCmd.continuousMove (-speed) 0),
              Effect.log "Panning left...",
              Effect.sleepMs 500] ++ stop_ptz st sf)

/-- `pan_right` (lines 349-373): as `pan_left` with velocity `(speed, 0)`. -/
def pan_right (st : ControllerState) (speed : ℚ) (f : MoveFault) (sf : StopFault) :
    ControllerState × List Effect :=
  if st.ptz_service = false then (st, [Effect.log "PTZ service not available"])
  else
    match f with
    | .failProfiles => (st, [Effect.log "Failed to pan right"])
    | .failMove =>
        (st, [Effect.ptz PtzCmd.getProfiles, Effect.log "Failed to pan right"])
    | .ok =>
        (st, [Effect.ptz PtzCmd.getProfiles,
              Effect.ptz (PtzCmd.continuousMove speed 0),
              Effect.log "Panning right...",
              Effect.sleepMs 500] ++ stop_ptz st sf)

/-- `tilt_up` (lines 375-399): as `pan_left` with velocity `(0, speed)`. -/
def tilt_up (st : ControllerState) (speed : ℚ) (f : MoveFault) (sf : StopFault) :
    ControllerState × List Effect :=
  if st.ptz_service = false then (st, [Effect.log "PTZ service not available"])
  else
    match f with
    | .failProfiles => (st, [Effect.log "Failed to tilt up"])
    | .failMove =>
        (st, [Effect.ptz PtzCmd.getProfiles, Effect.log "Failed to tilt up"])
    | .ok =>
        (st, [Effect.ptz PtzCmd.getProfiles,
              Effect.ptz (PtzCmd.continuousMove 0 speed),
              Effect.log "Tilting up...",
              Effect.sleepMs 500] ++ stop_ptz st sf)

/-- `tilt_down` (lines 401-425): as `pan_left` with velocity `(0, -speed)`. -/
def tilt_down (st : ControllerState) (speed : ℚ) (f : MoveFault) (sf : StopFault) :
    ControllerState × List Effect :=
  if st.ptz_service = false then (st, [Effect.log "PTZ service not available"])
  else
    match f with
    | .failProfiles => (st, [Effect.log "Failed to tilt down"])
    | .failMove =>
        (st, [Effect.ptz PtzCmd.getProfiles, Effect.log "Failed to tilt down"])
    | .ok =>
        (st, [Effect.ptz PtzCmd.getProfiles,
              Effect.ptz (PtzCmd.continuousMove 0 (-speed)),
              Effect.log "Tilting down...",
              Effect.sleepMs 500] ++ stop_ptz st sf)

/-- `go_home` (lines 446-463): when the PTZ handle is absent, log and
return; otherwise issue `GotoHomePosition`; transport exceptions caught and
logged.  No state field is assigned. -/
def go_home (st : ControllerState) (hf : HomeFault) : ControllerState × List Effect :=
  if st.ptz_service = false then (st, [Effect.log "PTZ service not available"])
  else
    match hf with
    | .fail => (st, [Effect.log "Failed to go home"])
    | .ok =>
        (st, [Effect.ptz PtzCmd.getProfiles, Effect.ptz PtzCmd.gotoHome,
              Effect.log "Moving to home position..."])

/-- `connect` (lines 56-89).  `cameraOk`, `mediaOk`, `ptzOk`, `imagingOk`
say whether the corresponding external handle creation succeeds.  A failure
of the camera or media-service creation is caught by the outer handler and
`connect` returns `False`, keeping whatever fields were already assigned;
failures of the PTZ or imaging service creation are caught by the inner
handlers (lines 68-79), merely warned about, and `connect` proceeds.
`_get_stream_url` (lines 91-140) catches every transport error internally
and always ends with `stream_url` assigned; its URL selection is opaque
here and supplied as `url`.  Console output of `connect` is omitted. -/
def connect (st : ControllerState) (cameraOk mediaOk ptzOk imagingOk : Bool)
    (url : String) : ControllerState × Bool :=
  if cameraOk = false then (st, false)
  else
    let s1 := { st with camera := true }
    if mediaOk = false then (s1, false)
    else
      ({ s1 with
          media_service := true,
          ptz_service := if ptzOk then true else s1.ptz_service,
          imaging_service := if imagingOk then true else s1.imaging_service,
          stream_url := some url }, true)

/-- `disconnect` (lines 533-538): release the capture handle when present,
destroy the display windows, log.  No state field is assigned (in
particular `video_capture` is not cleared). -/
def disconnect (st : ControllerState) : ControllerState × List Effect :=
  (st,
    (if st.video_capture then [Effect.releaseCapture] else []) ++
      [Effect.destroyWindows, Effect.log "Disconnected from camera"])

/-- The read-failure handling of one `show_video` loop iteration
(lines 240-251), given the current consecutive-failure counter
`frame_count` and whether `self.video_capture.read()` succeeded.  Returns
`none` when the loop `break`s (more than 5 consecutive failures) and
`some fc` with the updated counter otherwise, together with the effects:
a failed read logs, then either exits or sleeps 0.1 s and retries; a
successful read resets the counter to 0 (line 251). -/
def captureStepEff (frame_count : Nat) (ok : Bool) : Option Nat × List Effect :=
  if ok then (some 0, [])
  else
    let fc2 := frame_count + 1
    if fc2 > 5 then
      (none, [Effect.log "Failed to read frame",
              Effect.log "Too many failed frames, exiting..."])
    else
      (some fc2, [Effect.log "Failed to read frame", Effect.sleepMs 100])

/-- Counter transition of `captureStepEff`, effects dropped. -/
def captureStep (frame_count : Nat) (ok : Bool) : Option Nat :=
  (captureStepEff frame_count ok).1

/-- Run the `show_video` read loop over a finite trace of read outcomes
(`true` = frame read succeeded), starting from counter `frame_count`
(initially 0, line 235).  `none` when the loop exited via the
too-many-failures `break`; `some fc` with the final counter otherwise. -/
def runCapture : Nat → List Bool → Option Nat
  | fc, [] => some fc
  | fc, ok :: rest =>
      match captureStep fc ok with
      | none => none
      | some fc2 => runCapture fc2 rest

/-- The key-dispatch portion of one `show_video` iteration
(lines 294-319): each recognised key is handled by calling the matching
controller method synchronously, in the loop body itself.  Returns the new
state, the effects, and whether the loop `break`s (the quit key).  The
snapshot and info keys interact with external collaborators, modelled as
opaque effects.  The default `speed` of the Python methods is `0.5`. -/
inductive Key where
  | q | w | s | a | d | r | i | space | other
deriving DecidableEq, Repr

def handleKey (st : ControllerState) (k : Key) (f : MoveFault) (sf : StopFault)
    (hf : HomeFault) : ControllerState × List Effect × Bool :=
  match k with
  | .q => (st, [Effect.log "Quitting..."], true)
  | .w =>
      let r := tilt_up st (1/2) f sf
      (r.1, Effect.log "Tilting up..." :: r.2, false)
  | .s =>
      let r := tilt_down st (1/2) f sf
      (r.1, Effect.log "Tilting down..." :: r.2, false)
  | .a =>
      let r := pan_left st (1/2) f sf
      (r.1, Effect.log "Panning left..." :: r.2, false)
  | .d =>
      let r := pan_right st (1/2) f sf
      (r.1, Effect.log "Panning right..." :: r.2, false)
  | .r =>
      let r := go_home st hf
      (r.1, Effect.log "Going to home position..." :: r.2, false)
  | .i => (st, [Effect.log "Getting camera info...", Effect.cameraInfo], false)
  | .space => (st, [Effect.log "Taking snapshot...", Effect.snapshot], false)
  | .other => (st, [], false)

/-- Milliseconds of `time.sleep` contained in an effect. -/
def effectSleep : Effect → Nat
  | .sleepMs ms => ms
  | _ => 0

/-- Total milliseconds the issuing control flow spends sleeping while the
effect list is performed. -/
def blockingMs (l : List Effect) : Nat := (l.map effectSleep).sum

/-- Whether an effect is a `ContinuousMove` PTZ command. -/
def isMove : Effect → Bool
  | .ptz (.continuousMove _ _) => true
  | _ => false

/-- Whether an effect is a `Stop` PTZ command. -/
def isStop : Effect → Bool
  | .ptz .stop => true
  | _ => false

/-- Modelled from the spec: the length of the current run of consecutive
frame-read failures at the end of an outcome trace — reset to zero by a
success, incremented by one by each failure.  Used only to compare the
counter of the source loop against the wording of the spec. -/
def consecFailRunAux : Nat → List Bool → Nat
  | acc, [] => acc
  | _, true :: rest => consecFailRunAux 0 rest
  | acc, false :: rest => consecFailRunAux (acc + 1) rest

/-- Modelled from the spec: trailing consecutive-failure run of a trace. -/
def consecFailRun (tr : List Bool) : Nat := consecFailRunAux 0 tr

/-- A connected controller state with the PTZ handle present, used to
instantiate hypotheses at a concrete input. -/
def stPtz : ControllerState :=
  { camera_ip := "192.168.1.143", username := "admin123", password := "admin123",
    port := 2020, camera := true, media_service := true, ptz_service := true,
    imaging_service := true, stream_url := some "rtsp://s", video_capture := true }

/-- State transition of the pan-left key handler: `show_video` calls
`self.pan_left()` at the Python default speed `0.5` (line 307); only the
state component is kept. -/
def panLeftState (st : ControllerState) : ControllerState :=
  (pan_left st (1/2) MoveFault.ok StopFault.ok).1

/-- The controller state produced by a `connect` in which every handle
creation succeeds except the PTZ service (lines 68-73). -/
def connNoPtz (ip user pw : String) (port : Nat) (url : String) : ControllerState :=
  (connect (initController ip user pw port) true true false true url).1

/-! ### Helper lemmas -/

/-- Every branch of `pan_left` returns the state unchanged: the source
assigns no field of `self`. -/
theorem pan_left_fst (st : ControllerState) (speed : ℚ) (f : MoveFault)
    (sf : StopFault) : (pan_left st speed f sf).1 = st := by
  by_cases h : st.ptz_service = false <;> cases f <;> simp [pan_left, h]

theorem pan_right_fst (st : ControllerState) (speed : ℚ) (f : MoveFault)
    (sf : StopFault) : (pan_right st speed f sf).1 = st := by
  by_cases h : st.ptz_service = false <;> cases f <;> simp [pan_right, h]

theorem tilt_up_fst (st : ControllerState) (speed : ℚ) (f : MoveFault)
    (sf : StopFault) : (tilt_up st speed f sf).1 = st := by
  by_cases h : st.ptz_service = false <;> cases f <;> simp [tilt_up, h]

theorem tilt_down_fst (st : ControllerState) (speed : ℚ) (f : MoveFault)
    (sf : StopFault) : (tilt_down st speed f sf).1 = st := by
  by_cases h : st.ptz_service = false <;> cases f <;> simp [tilt_down, h]

/-- The counter transition of a failed read, as a closed form: increment,
then exit when the incremented counter exceeds 5. -/
theorem captureStep_false (fc : Nat) :
    captureStep fc false = if fc + 1 > 5 then none else some (fc + 1) := by
  by_cases h : fc + 1 > 5 <;> simp [captureStep, captureStepEff, h]

/-- Running the read loop over `n` consecutive failures from a counter
`fc0 ≤ 5`: it is still running with counter `fc0 + n` while that stays at
most 5 and has exited otherwise. -/
theorem runCapture_replicate_false (n fc0 : Nat) (h : fc0 ≤ 5) :
    runCapture fc0 (List.replicate n false) =
      if fc0 + n ≤ 5 then some (fc0 + n) else none := by
  induction n generalizing fc0 with
  | zero => simp [runCapture, h]
  | succ n ih =>
    rw [List.replicate_succ]
    by_cases h6 : fc0 + 1 > 5
    · have hstep : captureStep fc0 false = none := by
        rw [captureStep_false, if_pos h6]
      have hrw : runCapture fc0 (false :: List.replicate n false) = none := by
        simp [runCapture, hstep]
      rw [hrw, if_neg (by omega)]
    · have hstep : captureStep fc0 false = some (fc0 + 1) := by
        rw [captureStep_false, if_neg h6]
      have hrw : runCapture fc0 (false :: List.replicate n false) =
          runCapture (fc0 + 1) (List.replicate n false) := by
        simp [runCapture, hstep]
      rw [hrw, ih (fc0 + 1) (by omega)]
      by_cases h2 : fc0 + 1 + n ≤ 5
      · rw [if_pos h2, if_pos (by omega)]
        congr 1
        omega
      · rw [if_neg h2, if_neg (by omega)]

/-- A success appended to any trace resets the trailing failure run. -/
theorem consecFailRunAux_append_true (tr : List Bool) (acc : Nat) :
    consecFailRunAux acc (tr ++ [true]) = 0 := by
  induction tr generalizing acc with
  | nil => rfl
  | cons b rest ih => cases b <;> simp [consecFailRunAux, ih]

/-- A failure appended to any trace lengthens the trailing failure run by
exactly one. -/
theorem consecFailRunAux_append_false (tr : List Bool) (acc : Nat) :
    consecFailRunAux acc (tr ++ [false]) = consecFailRunAux acc tr + 1 := by
  induction tr generalizing acc with
  | nil => rfl
  | cons b rest ih => cases b <;> simp [consecFailRunAux, ih]

/-- When the read loop has not exited, its counter is exactly the trailing
consecutive-failure run of the outcome trace (shifted by the start value). -/
theorem runCapture_consec (tr : List Bool) (fc0 fc : Nat)
    (h : runCapture fc0 tr = some fc) : fc = consecFailRunAux fc0 tr := by
  induction tr generalizing fc0 with
  | nil =>
    simp [runCapture] at h
    simp [consecFailRunAux, h]
  | cons b rest ih =>
    cases b with
    | true =>
      have h2 : runCapture 0 rest = some fc := by
        simpa [runCapture, captureStep, captureStepEff] using h
      simpa [consecFailRunAux] using ih 0 h2
    | false =>
      by_cases h6 : fc0 + 1 > 5
      · have hstep : captureStep fc0 false = none := by
          rw [captureStep_false, if_pos h6]
        simp [runCapture, hstep] at h
      · have hstep : captureStep fc0 false = some (fc0 + 1) := by
          rw [captureStep_false, if_neg h6]
        have h2 : runCapture (fc0 + 1) rest = some fc := by
          simpa [runCapture, hstep] using h
        simpa [consecFailRunAux] using ih (fc0 + 1) h2

/-! ### Claim theorems -/

/-- C1 counterexample: `pan_left` called with argument 2 (PTZ available, no
transport fault) commands a pan velocity of -2, which lies outside
`[-1, 1]`; nothing is clamped before issuance. -/
theorem pan_left_no_clamp_cex :
    Effect.ptz (PtzCmd.continuousMove (-2) 0) ∈
      (pan_left stPtz 2 MoveFault.ok StopFault.ok).2 ∧
    ¬ ((-1 : ℚ) ≤ -2 ∧ (-2 : ℚ) ≤ 1) := by
  constructor
  · simp [pan_left, stop_ptz, stPtz]
  · norm_num

/-- C1 (amended): `pan_left` stores no position at all — the controller
state is returned unchanged — and it issues a `ContinuousMove` whose pan
velocity is the negated speed argument passed through without clamping:
every move command in its trace carries exactly the velocity
`(-speed, 0)`, whatever the magnitude of `speed`. -/
theorem pan_left_velocity_passthrough (st : ControllerState) (speed : ℚ)
    (h : st.ptz_service = true) :
    (pan_left st speed MoveFault.ok StopFault.ok).1 = st ∧
    Effect.ptz (PtzCmd.continuousMove (-speed) 0) ∈
      (pan_left st speed MoveFault.ok StopFault.ok).2 ∧
    ∀ x y : ℚ, Effect.ptz (PtzCmd.continuousMove x y) ∈
        (pan_left st speed MoveFault.ok StopFault.ok).2 →
      x = -speed ∧ y = 0 := by
  have hne : ¬ st.ptz_service = false := by simp [h]
  refine ⟨pan_left_fst _ _ _ _, ?_, ?_⟩
  · simp [pan_left, stop_ptz, hne]
  · intro x y hm
    simp [pan_left, stop_ptz, hne] at hm
    exact hm

/-- C1 witness: the amended claim at a concrete connected state and the
default speed. -/
theorem pan_left_velocity_passthrough_w :
    (pan_left stPtz (1/2) MoveFault.ok StopFault.ok).1 = stPtz ∧
    Effect.ptz (PtzCmd.continuousMove (-(1/2)) 0) ∈
      (pan_left stPtz (1/2) MoveFault.ok StopFault.ok).2 :=
  ⟨(pan_left_velocity_passthrough stPtz (1/2) rfl).1,
   (pan_left_velocity_passthrough stPtz (1/2) rfl).2.1⟩

/-- C2 counterexample: after only 6 consecutive failed reads — fewer than
the 30 the claim allows before any stop — the capture loop has already
exited. -/
theorem capture_stops_before_thirty_cex :
    runCapture 0 (List.replicate 6 false) = none ∧ (6 : Nat) < 30 := by
  constructor
  · rfl
  · decide

/-- C2 (amended): the `show_video` read loop exits (once, since the loop
is sequential and `break` leaves it) after exactly 6 consecutive failed
reads — the source breaks when the incremented counter exceeds 5 — and
with fewer than 6 consecutive failures it is still running with the
counter equal to the number of failures. -/
theorem capture_exit_threshold (n : Nat) :
    runCapture 0 (List.replicate n false) =
      if n ≤ 5 then some n else none := by
  simpa using runCapture_replicate_false n 0 (by omega)

/-- C3 counterexample: iterating the pan-left step once and twice from a
connected state yields identical stored states — the code stores no pan —
while the claimed values `max (-1, -0.1·1)` and `max (-1, -0.1·2)`
differ. -/
theorem pan_iterate_cex :
    panLeftState^[1] stPtz = panLeftState^[2] stPtz ∧
    max (-1 : ℚ) (-(1/10) * 1) ≠ max (-1 : ℚ) (-(1/10) * 2) := by
  constructor
  · rfl
  · rw [max_eq_right (by norm_num), max_eq_right (by norm_num)]
    norm_num

/-- C3 (amended): applying the pan-left step any number of times leaves
the controller state unchanged for every starting state: no pan position
is stored, so no formula in the step count can describe a stored pan. -/
theorem pan_iterate_state_unchanged (n : Nat) (st : ControllerState) :
    panLeftState^[n] st = st := by
  induction n with
  | zero => rfl
  | succ n ih =>
    rw [Function.iterate_succ_apply]
    have hst : panLeftState st = st :=
      pan_left_fst st (1/2) MoveFault.ok StopFault.ok
    rw [hst, ih]

/-- C4 counterexample: handling the pan-left key in the `show_video` loop
performs 500 ms of sleeping inside the loop body itself, so motion
dispatch blocks the control loop rather than running as a task. -/
theorem key_dispatch_blocks_cex :
    blockingMs
        (handleKey stPtz Key.a MoveFault.ok StopFault.ok HomeFault.ok).2.1 =
      500 ∧
    (500 : Nat) ≠ 0 := by
  constructor
  · rfl
  · decide

/-- C4 (amended): motion commands execute synchronously inline in the
control loop — each directional key handler contains exactly one
`ContinuousMove` and completes it (including the 0.5 s move delay) before
the handler returns, so at most one motor command ever executes at a time
and no backlog can form, but each one blocks the loop for 500 ms. -/
theorem key_dispatch_inline (st : ControllerState) (h : st.ptz_service = true) :
    ((handleKey st Key.a MoveFault.ok StopFault.ok HomeFault.ok).2.1.countP
        isMove = 1 ∧
      blockingMs
          (handleKey st Key.a MoveFault.ok StopFault.ok HomeFault.ok).2.1 =
        500) ∧
    ((handleKey st Key.d MoveFault.ok StopFault.ok HomeFault.ok).2.1.countP
        isMove = 1 ∧
      blockingMs
          (handleKey st Key.d MoveFault.ok StopFault.ok HomeFault.ok).2.1 =
        500) ∧
    ((handleKey st Key.w MoveFault.ok StopFault.ok HomeFault.ok).2.1.countP
        isMove = 1 ∧
      blockingMs
          (handleKey st Key.w MoveFault.ok StopFault.ok HomeFault.ok).2.1 =
        500) ∧
    ((handleKey st Key.s MoveFault.ok StopFault.ok HomeFault.ok).2.1.countP
        isMove = 1 ∧
      blockingMs
          (handleKey st Key.s MoveFault.ok StopFault.ok HomeFault.ok).2.1 =
        500) := by
  have hne : ¬ st.ptz_service = false := by simp [h]
  refine ⟨⟨?_, ?_⟩, ⟨?_, ?_⟩, ⟨?_, ?_⟩, ⟨?_, ?_⟩⟩ <;>
    simp [handleKey, pan_left, pan_right, tilt_up, tilt_down, stop_ptz, hne,
      blockingMs, effectSleep, isMove, List.countP_cons, List.countP_nil]

/-- C4 witness: the amended claim at a concrete connected state. -/
theorem key_dispatch_inline_w :
    (handleKey stPtz Key.a MoveFault.ok StopFault.ok HomeFault.ok).2.1.countP
        isMove = 1 ∧
    blockingMs
        (handleKey stPtz Key.a MoveFault.ok StopFault.ok HomeFault.ok).2.1 =
      500 :=
  (key_dispatch_inline stPtz rfl).1

/-- C5: a successful read resets the failure counter to 0, a failed
(non-fatal) read increments it by exactly one, and whenever the loop is
still running its counter equals the length of the trailing run of
consecutive failures of the outcome trace. -/
theorem fail_counter_run_length :
    (∀ fc : Nat, captureStep fc true = some 0) ∧
    (∀ fc : Nat, fc + 1 ≤ 5 → captureStep fc false = some (fc + 1)) ∧
    (∀ tr : List Bool, consecFailRun (tr ++ [true]) = 0) ∧
    (∀ tr : List Bool,
      consecFailRun (tr ++ [false]) = consecFailRun tr + 1) ∧
    (∀ (tr : List Bool) (fc : Nat),
      runCapture 0 tr = some fc → fc = consecFailRun tr) := by
  refine ⟨fun fc => rfl, ?_, ?_, ?_, ?_⟩
  · intro fc h
    rw [captureStep_false, if_neg (by omega)]
  · intro tr
    exact consecFailRunAux_append_true tr 0
  · intro tr
    exact consecFailRunAux_append_false tr 0
  · intro tr fc h
    exact runCapture_consec tr 0 fc h

/-- C5 witness: over the trace success-failure-failure the loop is running
with counter 2, the length of the trailing failure run. -/
theorem fail_counter_run_length_w :
    captureStep 3 false = some 4 ∧
    (2 : Nat) = consecFailRun [true, false, false] :=
  ⟨fail_counter_run_length.2.1 3 (by decide),
   fail_counter_run_length.2.2.2.2 [true, false, false] 2 (by decide)⟩

/-- C6 counterexample: the backoff after a transient failed read is a
100 ms sleep, not the 10 ms the claim states. -/
theorem backoff_cex :
    Effect.sleepMs 100 ∈ (captureStepEff 0 false).2 ∧
    Effect.sleepMs 10 ∉ (captureStepEff 0 false).2 := by
  decide

/-- C6 (amended): after every transient (non-fatal) failed read the loop
keeps running with the incremented counter and sleeps 100 ms
(`time.sleep(0.1)`, line 248) before the next read attempt. -/
theorem backoff_100ms (fc : Nat) (h : fc + 1 ≤ 5) :
    (captureStepEff fc false).1 = some (fc + 1) ∧
    Effect.sleepMs 100 ∈ (captureStepEff fc false).2 := by
  have h6 : ¬ fc + 1 > 5 := by omega
  constructor <;> simp [captureStepEff, h6]

/-- C6 witness: the amended claim at counter 0. -/
theorem backoff_100ms_w :
    (captureStepEff 0 false).1 = some 1 ∧
    Effect.sleepMs 100 ∈ (captureStepEff 0 false).2 :=
  backoff_100ms 0 (by decide)

/-- C7: a transport fault while issuing a pan command never escapes
`pan_left` — the embedded function is total, mirroring the catch-all
`except` of lines 346-347 — the failure is logged, and the controller
state (in particular any position it could store) is left unchanged in
every branch. -/
theorem pan_left_failure_noop (st : ControllerState) (speed : ℚ)
    (f : MoveFault) (sf : StopFault) :
    (pan_left st speed f sf).1 = st ∧
    (st.ptz_service = true → f ≠ MoveFault.ok →
      Effect.log "Failed to pan left" ∈ (pan_left st speed f sf).2) := by
  refine ⟨pan_left_fst _ _ _ _, ?_⟩
  intro h hf
  have hne : ¬ st.ptz_service = false := by simp [h]
  cases f with
  | ok => exact absurd rfl hf
  | failProfiles => simp [pan_left, hne]
  | failMove => simp [pan_left, hne]

/-- C7 witness: a fault at the `ContinuousMove` call on a concrete
connected state. -/
theorem pan_left_failure_noop_w :
    (pan_left stPtz (1/2) MoveFault.failMove StopFault.ok).1 = stPtz ∧
    Effect.log "Failed to pan left" ∈
      (pan_left stPtz (1/2) MoveFault.failMove StopFault.ok).2 :=
  ⟨(pan_left_failure_noop stPtz (1/2) MoveFault.failMove StopFault.ok).1,
   (pan_left_failure_noop stPtz (1/2) MoveFault.failMove StopFault.ok).2
     rfl (by decide)⟩

/-- C8: when the PTZ handle creation fails during `connect`, `connect`
still returns `True`, the stored PTZ handle stays absent, and every motion
operation returns the state unchanged with only the unavailability log —
no PTZ command is issued (and `stop_ptz` returns silently); since the
state is unchanged this holds for every later call as well. -/
theorem ptz_absent_noop (ip user pw : String) (port : Nat) (url : String)
    (speed : ℚ) (f : MoveFault) (sf : StopFault) (hf : HomeFault) :
    (connect (initController ip user pw port) true true false true url).2 =
      true ∧
    (connNoPtz ip user pw port url).ptz_service = false ∧
    pan_left (connNoPtz ip user pw port url) speed f sf =
      (connNoPtz ip user pw port url,
        [Effect.log "PTZ service not available"]) ∧
    pan_right (connNoPtz ip user pw port url) speed f sf =
      (connNoPtz ip user pw port url,
        [Effect.log "PTZ service not available"]) ∧
    tilt_up (connNoPtz ip user pw port url) speed f sf =
      (connNoPtz ip user pw port url,
        [Effect.log "PTZ service not available"]) ∧
    tilt_down (connNoPtz ip user pw port url) speed f sf =
      (connNoPtz ip user pw port url,
        [Effect.log "PTZ service not available"]) ∧
    go_home (connNoPtz ip user pw port url) hf =
      (connNoPtz ip user pw port url,
        [Effect.log "PTZ service not available"]) ∧
    stop_ptz (connNoPtz ip user pw port url) sf = [] := by
  have hp : (connNoPtz ip user pw port url).ptz_service = false := by
    simp [connNoPtz, connect, initController]
  refine ⟨by simp [connect], hp, ?_, ?_, ?_, ?_, ?_, ?_⟩ <;>
    simp [pan_left, pan_right, tilt_up, tilt_down, go_home, stop_ptz, hp]

/-- C9: `disconnect` assigns no field, so a second call starts from the
state the first call left and produces the same state and the same
teardown effects: the second call changes nothing the first call had not
already established. -/
theorem disconnect_idempotent (st : ControllerState) :
    (disconnect (disconnect st).1).1 = (disconnect st).1 ∧
    (disconnect (disconnect st).1).2 = (disconnect st).2 := by
  constructor <;> rfl

/-- C10: with the PTZ handle present and no transport fault, each of the
four directional operations performs exactly this effect sequence: one
`ContinuousMove` (and no other), the 0.5 s delay, then one `Stop` as the
final PTZ command — the motor is never left moving when the operation
returns. -/
theorem move_then_stop (st : ControllerState) (speed : ℚ)
    (h : st.ptz_service = true) :
    ((pan_left st speed MoveFault.ok StopFault.ok).2 =
        [Effect.ptz PtzCmd.getProfiles,
          Effect.ptz (PtzCmd.continuousMove (-speed) 0),
          Effect.log "Panning left...", Effect.sleepMs 500,
          Effect.ptz PtzCmd.getProfiles, Effect.ptz PtzCmd.stop] ∧
      (pan_left st speed MoveFault.ok StopFault.ok).2.countP isMove = 1 ∧
      (pan_left st speed MoveFault.ok StopFault.ok).2.countP isStop = 1) ∧
    ((pan_right st speed MoveFault.ok StopFault.ok).2 =
        [Effect.ptz PtzCmd.getProfiles,
          Effect.ptz (PtzCmd.continuousMove speed 0),
          Effect.log "Panning right...", Effect.sleepMs 500,
          Effect.ptz PtzCmd.getProfiles, Effect.ptz PtzCmd.stop] ∧
      (pan_right st speed MoveFault.ok StopFault.ok).2.countP isMove = 1 ∧
      (pan_right st speed MoveFault.ok StopFault.ok).2.countP isStop = 1) ∧
    ((tilt_up st speed MoveFault.ok StopFault.ok).2 =
        [Effect.ptz PtzCmd.getProfiles,
          Effect.ptz (PtzCmd.continuousMove 0 speed),
          Effect.log "Tilting up...", Effect.sleepMs 500,
          Effect.ptz PtzCmd.getProfiles, Effect.ptz PtzCmd.stop] ∧
      (tilt_up st speed MoveFault.ok StopFault.ok).2.countP isMove = 1 ∧
      (tilt_up st speed MoveFault.ok StopFault.ok).2.countP isStop = 1) ∧
    ((tilt_down st speed MoveFault.ok StopFault.ok).2 =
        [Effect.ptz PtzCmd.getProfiles,
          Effect.ptz (PtzCmd.continuousMove 0 (-speed)),
          Effect.log "Tilting down...", Effect.sleepMs 500,
          Effect.ptz PtzCmd.getProfiles, Effect.ptz PtzCmd.stop] ∧
      (tilt_down st speed MoveFault.ok StopFault.ok).2.countP isMove = 1 ∧
      (tilt_down st speed MoveFault.ok StopFault.ok).2.countP isStop = 1) := by
  have hne : ¬ st.ptz_service = false := by simp [h]
  refine ⟨⟨?_, ?_, ?_⟩, ⟨?_, ?_, ?_⟩, ⟨?_, ?_, ?_⟩, ⟨?_, ?_, ?_⟩⟩ <;>
    simp [pan_left, pan_right, tilt_up, tilt_down, stop_ptz, hne, isMove,
      isStop, List.countP_cons, List.countP_nil]

/-- C10 witness: the pan-left effect sequence at a concrete connected
state and the default speed. -/
theorem move_then_stop_w :
    (pan_left stPtz (1/2) MoveFault.ok StopFault.ok).2 =
      [Effect.ptz PtzCmd.getProfiles,
        Effect.ptz (PtzCmd.continuousMove (-(1/2)) 0),
        Effect.log "Panning left...", Effect.sleepMs 500,
        Effect.ptz PtzCmd.getProfiles, Effect.ptz PtzCmd.stop] :=
  (move_then_stop stPtz (1/2) rfl).1.1

end C2oo
